import Mathlib

/-!
# Verification of the SDS generation pipeline (`sds_generator.py`)

Shallow embedding of the core pipeline of `src/sds_generator.py`:
`validate_smiles` / `get_pubchem_data` / `predict_toxicity_protx` /
`get_physical_properties` / `section_name` / `generate_sds`.

External PubChem lookups are modelled by an explicit `Lookup` outcome
(the compound found by the first-match rule, an empty candidate list,
or a raised transport fault); `datetime.now()` is modelled by an
explicit date-string input.  Python exceptions are modelled with
`Except`: in `sds_generator.py` the name `st` (streamlit) is never
imported, so every `except` handler that calls `st.warning(...)`
raises a `NameError` which escapes to the caller; the model records
this as `PyError.nameError "st"`.
-/

namespace SDS

/-- A raw PubChem attribute value as seen by `safe_float`: Python
`None`, the sentinel string `"--"`, a parseable number, or a non-empty
string on which `float(...)` raises `ValueError`/`TypeError`. -/
inductive PValue where
  | none
  | dashes
  | num (q : ℚ)
  | badStr
deriving DecidableEq

/-- The fields of a `pubchempy` compound object that the code reads.
`Option` models attributes that may be Python `None` (for string and
count attributes the code applies falsy-`or` defaults; `cas` is read
with `getattr(c, 'cas', "Not available")`). -/
structure Compound where
  iupac_name : Option String
  synonyms : List String
  molecular_formula : Option String
  molecular_weight : PValue
  xlogp : PValue
  tpsa : PValue
  h_bond_donor_count : Option Nat
  h_bond_acceptor_count : Option Nat
  rotatable_bond_count : Option Nat
  heavy_atom_count : Option Nat
  cas : Option String
deriving DecidableEq

/-- Outcome of one `pcp.get_compounds(smiles, 'smiles')` call: a first
matching compound, an empty candidate list, or a raised lookup fault. -/
inductive Lookup where
  | ok (c : Compound)
  | empty
  | fault
deriving DecidableEq

/-- A Python exception escaping a function of the module.  The only
kind the module can actually raise to its caller is the `NameError`
on the unimported name `st` inside the `except` handlers. -/
inductive PyError where
  | nameError (missing : String)
deriving DecidableEq

/-- Python falsy-`or` on an optional string: `s or d`. -/
def orStr (v : Option String) (d : String) : String :=
  match v with
  | Option.none => d
  | some s => if s = "" then d else s

/-- Python falsy-`or` on an optional count: `n or 0`. -/
def orNat (v : Option Nat) : Nat :=
  match v with
  | Option.none => 0
  | some n => n

/-- Python substring containment (`needle in hay`) on character lists. -/
def charsContain (n : List Char) : List Char → Bool
  | [] => n.isEmpty
  | c :: rest => List.isPrefixOf n (c :: rest) || charsContain n rest

/-- Python `needle in hay` for strings. -/
def strContains (needle hay : String) : Bool :=
  charsContain needle.data hay.data

/-- `safe_float` of `get_pubchem_data`/`get_physical_properties`:
`float(val) if val not in [None, '--'] else default`, with the
`except` clause returning the default on an unparseable value. -/
def safe_float (v : PValue) (d : ℚ) : ℚ :=
  match v with
  | .none => d
  | .dashes => d
  | .num q => q
  | .badStr => d

/-- Python `round(x, 2)`.  (Python uses round-half-even while `round`
here rounds half away from zero; the two differ only on exact
half-hundredth ties, which no claim exercises.) -/
def round2 (q : ℚ) : ℚ := ((round (q * 100) : ℤ) : ℚ) / 100

/-- Python truthiness of a raw attribute value (used for `if c.tpsa`). -/
def PValue.truthy : PValue → Bool
  | .none => false
  | .dashes => true
  | .num q => decide (q ≠ 0)
  | .badStr => true

/-- `validate_smiles`: first candidate, or `None` on an empty list.
On a raised lookup fault the handler evaluates `st.warning(...)` with
`st` unbound, so a `NameError` escapes instead of returning `None`. -/
def validate_smiles : Lookup → Except PyError (Option Compound)
  | .ok c => .ok (some c)
  | .empty => .ok Option.none
  | .fault => .error (.nameError "st")

/-- The dictionary produced by a successful `get_pubchem_data`. -/
structure PubchemRecord where
  name : String
  formula : String
  mw : ℚ
  cas : String
  logp : ℚ
  solubility : String
  h_bond_donor : Nat
  h_bond_acceptor : Nat
deriving DecidableEq

/-- `c.iupac_name or (c.synonyms[0] if c.synonyms else "Unknown")`. -/
def compound_display_name (c : Compound) : String :=
  orStr c.iupac_name (match c.synonyms with | [] => "Unknown" | s :: _ => s)

/-- `get_pubchem_data`: `{}` (modelled `Option.none`) on an empty
candidate list, the extracted record otherwise.  On a raised fault the
`st.warning` handler itself raises `NameError`. -/
def get_pubchem_data : Lookup → Except PyError (Option PubchemRecord)
  | .empty => .ok Option.none
  | .fault => .error (.nameError "st")
  | .ok c =>
      .ok (some
        { name := compound_display_name c
          formula := orStr c.molecular_formula "Not available"
          mw := round2 (safe_float c.molecular_weight 0)
          cas := c.cas.getD "Not available"
          logp := round2 (safe_float c.xlogp 2)
          solubility :=
            if safe_float c.molecular_weight 0 < 500 ∧ safe_float c.xlogp 2 < 3
            then "Highly soluble" else "Low solubility"
          h_bond_donor := orNat c.h_bond_donor_count
          h_bond_acceptor := orNat c.h_bond_acceptor_count })

/-- The dictionary returned by `predict_toxicity_protx`. -/
structure ProtxResult where
  toxicity_class : String
  hazard_endpoints : List String
  ld50 : String
deriving DecidableEq

/-- Python `str.lower()`: lower-case every character. -/
def lowerStr (s : String) : String := ⟨s.data.map Char.toLower⟩

/-- `" ".join(c.synonyms).lower() if c.synonyms else ""`. -/
def synonym_blob (syns : List String) : String :=
  if syns.isEmpty then "" else lowerStr (String.intercalate " " syns)

/-- The keyword heuristic of `predict_toxicity_protx`: the blob is
tested for the substrings `nitro`, `cyano`, `cyanide`. -/
def classify_synonyms (syns : List String) : ProtxResult :=
  if strContains "nitro" (synonym_blob syns) ||
     (strContains "cyano" (synonym_blob syns) ||
      strContains "cyanide" (synonym_blob syns)) then
    { toxicity_class := "Class II (High)"
      hazard_endpoints := ["Hepatotoxicity", "Neurotoxicity"]
      ld50 := "50 mg/kg" }
  else
    { toxicity_class := "Class IV (Low)"
      hazard_endpoints := ["None predicted"]
      ld50 := "5000 mg/kg" }

/-- `predict_toxicity_protx`: classifies the first candidate's synonym
list.  An empty candidate list raises `ValueError`, a fault raises the
lookup error; either way the `except` handler calls `st.warning` with
`st` unbound and a `NameError` escapes (the `"Unknown"` fallback
dictionary of the source is unreachable). -/
def predict_toxicity_protx : Lookup → Except PyError ProtxResult
  | .empty => .error (.nameError "st")
  | .fault => .error (.nameError "st")
  | .ok c => .ok (classify_synonyms c.synonyms)

/-- The dictionary returned by a successful `get_physical_properties`
(underscore-prefixed numeric fields plus the rendered text fields). -/
structure PhysProps where
  mw_numeric : ℚ
  logp_numeric : ℚ
  mw_text : String
  logp_text : String
  tpsa_text : String
  h_bond_donors : Nat
  h_bond_acceptors : Nat
  rotatable_bonds : Nat
  heavy_atoms : Nat
deriving DecidableEq

/-- Python `f"{q:.2f}"` (same half-tie caveat as `round2`). -/
def fmt2 (q : ℚ) : String :=
  ((if round (q * 100) < (0 : ℤ) then "-" else "") ++
    toString ((round (q * 100) : ℤ).natAbs / 100)) ++
  ("." ++ ((if (round (q * 100) : ℤ).natAbs % 100 < 10 then "0" else "") ++
    toString ((round (q * 100) : ℤ).natAbs % 100)))

/-- `get_physical_properties`: extraction with `safe_float` defaults.
An empty candidate list raises `ValueError`, a fault the lookup error;
both land in the bare `except:` whose `st.warning` raises `NameError`
(the hard-coded 300.0/2.0 fallback dictionary is unreachable). -/
def get_physical_properties : Lookup → Except PyError PhysProps
  | .empty => .error (.nameError "st")
  | .fault => .error (.nameError "st")
  | .ok c =>
      .ok
        { mw_numeric := safe_float c.molecular_weight 0
          logp_numeric := safe_float c.xlogp 2
          mw_text := fmt2 (safe_float c.molecular_weight 0) ++ " g/mol"
          logp_text := fmt2 (safe_float c.xlogp 2)
          tpsa_text :=
            if c.tpsa.truthy then fmt2 (safe_float c.tpsa 0) ++ " Å²"
            else "Not available"
          h_bond_donors := orNat c.h_bond_donor_count
          h_bond_acceptors := orNat c.h_bond_acceptor_count
          rotatable_bonds := orNat c.rotatable_bond_count
          heavy_atoms := orNat c.heavy_atom_count }

/-- The static per-section title table `section_name`. -/
def section_name (i : Nat) : String :=
  match i with
  | 1 => "Chemical Product and Company Identification"
  | 2 => "Composition and Information on Ingredients"
  | 3 => "Hazards Identification"
  | 4 => "First Aid Measures"
  | 5 => "Fire and Explosion Data"
  | 6 => "Accidental Release Measures"
  | 7 => "Handling and Storage"
  | 8 => "Exposure Controls/Personal Protection"
  | 9 => "Physical and Chemical Properties"
  | 10 => "Stability and Reactivity"
  | 11 => "Toxicological Information"
  | 12 => "Ecological Information"
  | 13 => "Disposal Considerations"
  | 14 => "Transport Information"
  | 15 => "Other Regulatory Information"
  | 16 => "Other Information"
  | j => "Section " ++ toString j

/-- A value stored in a section's `data` dictionary: a string, an
integer count, or a list of strings. -/
inductive FieldVal where
  | s (v : String)
  | n (v : Nat)
  | list (vs : List String)
deriving DecidableEq

/-- One SDS section: fixed title, ordered `data` dictionary, `notes`. -/
structure SdsSection where
  title : String
  data : List (String × FieldVal)
  notes : List String
deriving DecidableEq

/-- The SDS document: the ordered `"Section1"`..`"Section16"` map. -/
abbrev Sds := List (String × SdsSection)

/-- `pubchem.get(field, d)` on the possibly-empty pubchem dictionary. -/
def pub_str (p : Option PubchemRecord) (f : PubchemRecord → String)
    (d : String) : String :=
  match p with
  | Option.none => d
  | some r => f r

/-- `pubchem.get("logp", 0)`. -/
def pub_logp (p : Option PubchemRecord) : ℚ :=
  match p with
  | Option.none => 0
  | some r => r.logp

/-- Line 199: `is_flammable = pubchem.get("logp", 0) > 1.5`. -/
def is_flammable (p : Option PubchemRecord) : Bool :=
  decide (pub_logp p > 3 / 2)

/-- The exact-string list of line 200. -/
def toxic_class_list : List String :=
  ["Class I", "Class II", "Class III", "Class IV"]

/-- Line 200: `is_toxic = protx.get("toxicity_class") in [...]`. -/
def is_toxic (tc : String) : Bool :=
  toxic_class_list.contains tc

/-- The pictogram list of Section 3 (flammable marker first). -/
def pictograms (fl tx : Bool) : List String :=
  (if fl then ["🔥 Flammable"] else []) ++
  (if tx then ["💀 Acute Toxicity"] else [])

/-- The hazard-statement list of Section 3. -/
def hazard_statements (fl tx : Bool) : List String :=
  (if fl then ["H225: Highly flammable liquid and vapor"] else []) ++
  (if tx then ["H301: Toxic if swallowed", "H331: Toxic if inhaled"] else [])

/-- The conditionally concatenated health-effects paragraph. -/
def health_effects_text (fl tx : Bool) : String :=
  "This substance is harmful if inhaled, swallowed, or absorbed through the skin. " ++
  ((if tx then "It may cause central nervous system depression, organ damage, or acute toxicity. " else "") ++
   ((if fl then "Vapors may cause dizziness or asphyxiation in high concentrations. " else "") ++
    "Chronic exposure may lead to liver, kidney, or respiratory damage."))

/-- The fixed precautionary-statement list of Section 3. -/
def precautionary : List String :=
  ["P210: Keep away from heat, hot surfaces, sparks, open flames.",
   "P241: Use explosion-proof electrical/ventilation equipment.",
   "P261: Avoid breathing dust/fume/gas/mist/vapors/spray.",
   "P280: Wear protective gloves/protective clothing/eye protection/face protection.",
   "P305+P351+P338: IF IN EYES: Rinse cautiously with water for several minutes."]

/-- Section 1 data. -/
def mk_section1 (p : Option PubchemRecord) : List (String × FieldVal) :=
  [("Product Identifier", .s (pub_str p (fun r => r.name) "Unknown Compound")),
   ("Company", .s "Automated SDS Generator"),
   ("Address", .s "N/A"),
   ("Emergency Phone", .s "N/A"),
   ("Recommended Use", .s "Research Use Only")]

/-- Section 2 data. -/
def mk_section2 (p : Option PubchemRecord) : List (String × FieldVal) :=
  [("Name", .s (pub_str p (fun r => r.name) "Unknown")),
   ("CAS Number", .s (pub_str p (fun r => r.cas) "Not available")),
   ("Molecular Formula", .s (pub_str p (fun r => r.formula) "Not available")),
   ("Purity/Concentration", .s "100% (pure compound)")]

/-- Section 3 data (hazards identification). -/
def mk_section3 (p : Option PubchemRecord) (protx : ProtxResult) :
    List (String × FieldVal) :=
  [("Signal Word",
      .s (if is_flammable p || is_toxic protx.toxicity_class
          then "Danger" else "Warning")),
   ("GHS Pictograms",
      .s (if (pictograms (is_flammable p) (is_toxic protx.toxicity_class)).isEmpty
          then "Not classified"
          else String.intercalate ", "
            (pictograms (is_flammable p) (is_toxic protx.toxicity_class)))),
   ("Hazard Statements",
      .list (if (hazard_statements (is_flammable p) (is_toxic protx.toxicity_class)).isEmpty
             then ["No significant hazards identified"]
             else hazard_statements (is_flammable p) (is_toxic protx.toxicity_class))),
   ("Precautionary Statements", .list precautionary),
   ("Physical Hazards",
      .s (if is_flammable p then "Flammable liquid and vapor" else "Not flammable")),
   ("Health Hazards",
      .s (if String.intercalate ", "
              (((pictograms (is_flammable p) (is_toxic protx.toxicity_class)).filter
                  (fun x => strContains "💀" x)).map
                (fun x => x.replace "💀 " "")) = ""
          then "None identified"
          else String.intercalate ", "
              (((pictograms (is_flammable p) (is_toxic protx.toxicity_class)).filter
                  (fun x => strContains "💀" x)).map
                (fun x => x.replace "💀 " "")))),
   ("Environmental Hazards",
      .s (if ["Class I", "Class II"].contains protx.toxicity_class
          then "Toxic to aquatic life" else "Low concern")),
   ("Routes of Exposure", .s "Inhalation, Skin Contact, Ingestion, Eye Contact"),
   ("Acute and Chronic Effects",
      .s (health_effects_text (is_flammable p) (is_toxic protx.toxicity_class))),
   ("Immediate Medical Attention",
      .s "Seek medical attention immediately in case of exposure. Show SDS to physician.")]

/-- Section 4 data (fixed first-aid text). -/
def mk_section4 : List (String × FieldVal) :=
  [("Inhalation", .s "Move to fresh air. If breathing is difficult, give oxygen."),
   ("Skin Contact", .s "Flush with plenty of water. Remove contaminated clothing."),
   ("Eye Contact", .s "Flush with water for at least 15 minutes."),
   ("Ingestion", .s "Do NOT induce vomiting. Rinse mouth and consult a physician.")]

/-- Section 5 data: the flash point is selected by
`pubchem.get("logp", 0) > 1` (not by `is_flammable`), and the
flammable-limit text is an unconditional literal. -/
def mk_section5 (p : Option PubchemRecord) : List (String × FieldVal) :=
  [("Flash Point", .s (if pub_logp p > 1 then "13°C" else "Not flammable")),
   ("Flammable Limits", .s "3.3% - 19% in air"),
   ("Extinguishing Media", .s "Dry chemical, CO2, alcohol-resistant foam"),
   ("Special Hazards", .s "Vapors may form explosive mixtures with air.")]

/-- Section 6 data. -/
def mk_section6 : List (String × FieldVal) :=
  [("Personal Precautions", .s "Wear PPE, ensure ventilation"),
   ("Environmental Precautions", .s "Prevent entry into drains or waterways"),
   ("Methods of Containment", .s "Absorb with inert material (sand, vermiculite)")]

/-- Section 7 data. -/
def mk_section7 : List (String × FieldVal) :=
  [("Handling", .s "Ground containers, use explosion-proof equipment"),
   ("Storage", .s "Store in a cool, well-ventilated place away from ignition sources")]

/-- Section 8 data. -/
def mk_section8 : List (String × FieldVal) :=
  [("TLV-TWA", .s "100 ppm (300 mg/m³) for ethanol-like compounds"),
   ("Engineering Controls", .s "Local exhaust ventilation"),
   ("Personal Protection", .s "Safety goggles, gloves, lab coat")]

/-- Section 9 data: fixed entries, then the merged non-underscore
entries of the `props` dictionary in insertion order. -/
def mk_section9 (p : Option PubchemRecord) (props : PhysProps) :
    List (String × FieldVal) :=
  [("Physical State", .s (if props.mw_numeric < 300 then "Liquid" else "Solid")),
   ("Color", .s "Colorless"),
   ("Odor", .s "Characteristic"),
   ("Melting Point", .s "Not available"),
   ("Boiling Point", .s "Not available"),
   ("Solubility in Water", .s (pub_str p (fun r => r.solubility) "Data not available")),
   ("Density", .s "Approx. 0.79 g/cm³ (for alcohols)"),
   ("Vapor Pressure", .s "< 1 mmHg at 25°C"),
   ("Molecular Weight", .s props.mw_text),
   ("LogP", .s props.logp_text),
   ("Topological Polar Surface Area (TPSA)", .s props.tpsa_text),
   ("Hydrogen Bond Donors", .n props.h_bond_donors),
   ("Hydrogen Bond Acceptors", .n props.h_bond_acceptors),
   ("Rotatable Bonds", .n props.rotatable_bonds),
   ("Heavy Atom Count", .n props.heavy_atoms)]

/-- Section 10 data. -/
def mk_section10 : List (String × FieldVal) :=
  [("Stability", .s "Stable under normal conditions"),
   ("Conditions to Avoid", .s "Heat, flames, sparks"),
   ("Incompatible Materials", .s "Strong oxidizing agents"),
   ("Hazardous Decomposition", .s "Carbon monoxide, carbon dioxide")]

/-- Section 11 data (toxicological information). -/
def mk_section11 (protx : ProtxResult) : List (String × FieldVal) :=
  [("LD50 Oral Rat", .s protx.ld50),
   ("LC50 Inhalation Rat", .s "Not available"),
   ("Carcinogenicity",
      .s (if protx.hazard_endpoints.contains "Hepatotoxicity"
          then "Suspected" else "Not suspected")),
   ("Mutagenicity",
      .s (if protx.hazard_endpoints.contains "Hepatotoxicity"
          then "Positive" else "Negative")),
   ("Toxicity Class", .s protx.toxicity_class)]

/-- Section 12 data. -/
def mk_section12 (protx : ProtxResult) : List (String × FieldVal) :=
  [("Ecotoxicity",
      .s (if ["Class I", "Class II"].contains protx.toxicity_class
          then "Toxic to aquatic life" else "Low concern")),
   ("Biodegradability", .s "Yes"),
   ("Persistence", .s "Low"),
   ("Bioaccumulation", .s "Low potential")]

/-- Section 13 data. -/
def mk_section13 : List (String × FieldVal) :=
  [("Disposal Method", .s "Dispose in accordance with local regulations"),
   ("Contaminated Packaging", .s "Rinse and recycle or dispose properly")]

/-- Section 14 data (hard-coded ethanol shipping data). -/
def mk_section14 : List (String × FieldVal) :=
  [("UN Number", .s "UN1170"),
   ("Proper Shipping Name", .s "Ethanol or Ethyl Alcohol"),
   ("Transport Hazard Class", .s "3 (Flammable Liquid)"),
   ("Packing Group", .s "II")]

/-- Section 15 data. -/
def mk_section15 : List (String × FieldVal) :=
  [("TSCA", .s "Listed"),
   ("DSL", .s "Listed"),
   ("WHMIS", .s "Classified"),
   ("GHS Regulation", .s "GHS Rev 9 compliant")]

/-- Section 16 data: `Date Prepared` copies `datetime.now()`. -/
def mk_section16 (today : String) : List (String × FieldVal) :=
  [("Date Prepared", .s today),
   ("Revision Number", .s "1.0"),
   ("Prepared By", .s "Automated ADMET-SDS System"),
   ("Disclaimer", .s "Generated for research use only. Verify with lab testing.")]

/-- The assembly of `generate_sds` after the three lookups succeeded:
the comprehension creates all sixteen `"Section{i}"` keys with their
fixed titles and empty data, then each section's data is filled. -/
def mk_sds (p : Option PubchemRecord) (protx : ProtxResult)
    (props : PhysProps) (today : String) : Sds :=
  [("Section1", ⟨section_name 1, mk_section1 p, []⟩),
   ("Section2", ⟨section_name 2, mk_section2 p, []⟩),
   ("Section3", ⟨section_name 3, mk_section3 p protx, []⟩),
   ("Section4", ⟨section_name 4, mk_section4, []⟩),
   ("Section5", ⟨section_name 5, mk_section5 p, []⟩),
   ("Section6", ⟨section_name 6, mk_section6, []⟩),
   ("Section7", ⟨section_name 7, mk_section7, []⟩),
   ("Section8", ⟨section_name 8, mk_section8, []⟩),
   ("Section9", ⟨section_name 9, mk_section9 p props, []⟩),
   ("Section10", ⟨section_name 10, mk_section10, []⟩),
   ("Section11", ⟨section_name 11, mk_section11 protx, []⟩),
   ("Section12", ⟨section_name 12, mk_section12 protx, []⟩),
   ("Section13", ⟨section_name 13, mk_section13, []⟩),
   ("Section14", ⟨section_name 14, mk_section14, []⟩),
   ("Section15", ⟨section_name 15, mk_section15, []⟩),
   ("Section16", ⟨section_name 16, mk_section16 today, []⟩)]

/-- The ambient effects of one `generate_sds(smiles)` call: the four
independent `pcp.get_compounds` outcomes (one per helper, in call
order) and the current date. -/
structure Env where
  validate_lookup : Lookup
  pubchem_lookup : Lookup
  protx_lookup : Lookup
  props_lookup : Lookup
  today : String

/-- `generate_sds`: `None` when validation finds no compound,
otherwise the assembled sixteen-section document.  Any `NameError`
escaping a helper propagates. -/
def generate_sds (env : Env) : Except PyError (Option Sds) :=
  match validate_smiles env.validate_lookup with
  | .error e => .error e
  | .ok Option.none => .ok Option.none
  | .ok (some _) =>
    match get_pubchem_data env.pubchem_lookup with
    | .error e => .error e
    | .ok pubchem =>
      match predict_toxicity_protx env.protx_lookup with
      | .error e => .error e
      | .ok protx =>
        match get_physical_properties env.props_lookup with
        | .error e => .error e
        | .ok props => .ok (some (mk_sds pubchem protx props env.today))

/-- Field lookup in the document model: section key, then field key. -/
def getField (sds : Sds) (sec key : String) : Option FieldVal :=
  match List.lookup sec sds with
  | Option.none => Option.none
  | some sectRec => List.lookup key sectRec.data

/-! ## Sample values used as concrete instantiations -/

/-- A compound whose weight and LogP attributes are both unusable. -/
def missing_compound : Compound :=
  { iupac_name := Option.none
    synonyms := []
    molecular_formula := Option.none
    molecular_weight := PValue.none
    xlogp := PValue.dashes
    tpsa := PValue.none
    h_bond_donor_count := Option.none
    h_bond_acceptor_count := Option.none
    rotatable_bond_count := Option.none
    heavy_atom_count := Option.none
    cas := Option.none }

/-- The pubchem record of the spec's aspirin scenario (LogP 1.2). -/
def aspirin_record : PubchemRecord :=
  { name := "Aspirin"
    formula := "C9H8O4"
    mw := 180.16
    cas := "50-78-2"
    logp := 1.2
    solubility := "Highly soluble"
    h_bond_donor := 1
    h_bond_acceptor := 4 }

/-- A record sitting exactly on the flammability boundary LogP 1.5. -/
def boundary_record : PubchemRecord :=
  { name := "Boundary"
    formula := "C2H6O"
    mw := 46.07
    cas := "64-17-5"
    logp := 3 / 2
    solubility := "Highly soluble"
    h_bond_donor := 1
    h_bond_acceptor := 1 }

/-- The low-toxicity classifier output used as a sample assessment. -/
def sampleProtx : ProtxResult :=
  { toxicity_class := "Class IV (Low)"
    hazard_endpoints := ["None predicted"]
    ld50 := "5000 mg/kg" }

/-- Physical properties of the aspirin scenario. -/
def samplePhys : PhysProps :=
  { mw_numeric := 180.16
    logp_numeric := 1.2
    mw_text := "180.16 g/mol"
    logp_text := "1.20"
    tpsa_text := "63.60 Å²"
    h_bond_donors := 1
    h_bond_acceptors := 4
    rotatable_bonds := 3
    heavy_atoms := 13 }

/-- An environment whose four lookups each find `missing_compound`. -/
def sampleEnv : Env :=
  { validate_lookup := Lookup.ok missing_compound
    pubchem_lookup := Lookup.ok missing_compound
    protx_lookup := Lookup.ok missing_compound
    props_lookup := Lookup.ok missing_compound
    today := "2025-01-01" }

/-- The pubchem record `get_pubchem_data` extracts from
`missing_compound` (defaults 0.0 and 2.0 applied). -/
def sampleRecord : PubchemRecord :=
  { name := compound_display_name missing_compound
    formula := orStr missing_compound.molecular_formula "Not available"
    mw := round2 (safe_float missing_compound.molecular_weight 0)
    cas := missing_compound.cas.getD "Not available"
    logp := round2 (safe_float missing_compound.xlogp 2)
    solubility :=
      if safe_float missing_compound.molecular_weight 0 < 500 ∧
         safe_float missing_compound.xlogp 2 < 3
      then "Highly soluble" else "Low solubility"
    h_bond_donor := orNat missing_compound.h_bond_donor_count
    h_bond_acceptor := orNat missing_compound.h_bond_acceptor_count }

/-- Physical properties `get_physical_properties` extracts from
`missing_compound`. -/
def samplePhysMissing : PhysProps :=
  { mw_numeric := safe_float missing_compound.molecular_weight 0
    logp_numeric := safe_float missing_compound.xlogp 2
    mw_text := fmt2 (safe_float missing_compound.molecular_weight 0) ++ " g/mol"
    logp_text := fmt2 (safe_float missing_compound.xlogp 2)
    tpsa_text :=
      if missing_compound.tpsa.truthy
      then fmt2 (safe_float missing_compound.tpsa 0) ++ " Å²"
      else "Not available"
    h_bond_donors := orNat missing_compound.h_bond_donor_count
    h_bond_acceptors := orNat missing_compound.h_bond_acceptor_count
    rotatable_bonds := orNat missing_compound.rotatable_bond_count
    heavy_atoms := orNat missing_compound.heavy_atom_count }

/-- The document `generate_sds` assembles in `sampleEnv`. -/
def sampleDoc : Sds :=
  mk_sds (some sampleRecord) (classify_synonyms missing_compound.synonyms)
    samplePhysMissing sampleEnv.today

/-! ## Shared helper lemmas -/

/-- Every classifier output fails the exact-string membership test of
line 200, so `is_toxic` is `false` on the whole range of the
classifier. -/
theorem is_toxic_classify_eq_false (syns : List String) :
    is_toxic (classify_synonyms syns).toxicity_class = false := by
  unfold classify_synonyms
  split <;> rfl

/-! ## Claims -/

/-- C2: for every property record, `is_flammable` is true iff the
record's LogP is strictly greater than 1.5, and at the boundary
LogP = 1.5 the flag is false. -/
theorem C2_is_flammable_iff (r : PubchemRecord) :
    (is_flammable (some r) = true ↔ r.logp > 3 / 2) ∧
    (r.logp = 3 / 2 → is_flammable (some r) = false) := by
  constructor
  · simp [is_flammable, pub_logp]
  · intro h
    simp [is_flammable, pub_logp, h]

/-- Witness for C2 at the boundary record with LogP exactly 1.5. -/
theorem C2_is_flammable_iff_witness :
    boundary_record.logp = 3 / 2 ∧ is_flammable (some boundary_record) = false :=
  ⟨rfl, (C2_is_flammable_iff boundary_record).2 rfl⟩

/-- C3: the toxicity classifier on synonym list `["2-nitrophenol"]`
returns Class II (High) with hepato/neurotoxicity endpoints and LD50
"50 mg/kg", and on `["ethanol"]` returns Class IV (Low) with no
predicted endpoints and LD50 "5000 mg/kg". -/
theorem C3_classifier_examples :
    classify_synonyms ["2-nitrophenol"] =
      { toxicity_class := "Class II (High)"
        hazard_endpoints := ["Hepatotoxicity", "Neurotoxicity"]
        ld50 := "50 mg/kg" } ∧
    classify_synonyms ["ethanol"] =
      { toxicity_class := "Class IV (Low)"
        hazard_endpoints := ["None predicted"]
        ld50 := "5000 mg/kg" } := by
  constructor <;> rfl

/-- Counterexample to C4: "Class IV (Low)" is an actual classifier
output, and the membership test of line 200 does not treat it as
toxic. -/
theorem C4_counterexample :
    (classify_synonyms ["ethanol"]).toxicity_class = "Class IV (Low)" ∧
    is_toxic "Class IV (Low)" = false := by
  constructor <;> rfl

/-- C4 amended: the implemented code path treats no classification
returned by the classifier as toxic, because the membership test uses
the exact strings "Class I".."Class IV", which never match the
classifier's outputs. -/
theorem C4_no_output_is_toxic (syns : List String) :
    is_toxic (classify_synonyms syns).toxicity_class = false :=
  is_toxic_classify_eq_false syns

/-- C6: the Section 3 "Signal Word" field is "Danger" exactly when
`is_flammable ∨ is_toxic` holds, and "Warning" otherwise. -/
theorem C6_signal_word_iff (p : Option PubchemRecord) (t : ProtxResult)
    (pr : PhysProps) (d : String) :
    (getField (mk_sds p t pr d) "Section3" "Signal Word" =
        some (.s "Danger") ↔
      (is_flammable p || is_toxic t.toxicity_class) = true) ∧
    (getField (mk_sds p t pr d) "Section3" "Signal Word" =
        some (.s "Warning") ↔
      (is_flammable p || is_toxic t.toxicity_class) = false) := by
  have e : getField (mk_sds p t pr d) "Section3" "Signal Word" =
      some (.s (if is_flammable p || is_toxic t.toxicity_class
                then "Danger" else "Warning")) := rfl
  rw [e]
  cases hb : (is_flammable p || is_toxic t.toxicity_class) <;> decide

/-- Witness for C6: neither flag holds on an empty pubchem record with
a Class IV (Low) assessment, and the signal word is "Warning". -/
theorem C6_signal_word_iff_witness :
    (is_flammable Option.none || is_toxic sampleProtx.toxicity_class) = false ∧
    getField (mk_sds Option.none sampleProtx samplePhys "2025-01-01")
        "Section3" "Signal Word" = some (.s "Warning") := by
  have h1 : is_flammable Option.none = false := by
    norm_num [is_flammable, pub_logp]
  have h2 : is_toxic sampleProtx.toxicity_class = false := by decide
  have hb : (is_flammable Option.none ||
      is_toxic sampleProtx.toxicity_class) = false := by rw [h1, h2]; rfl
  exact ⟨hb,
    (C6_signal_word_iff Option.none sampleProtx samplePhys "2025-01-01").2.mpr hb⟩

/-- Counterexample to C8: in the spec's own aspirin scenario
(LogP 1.2) `is_flammable` is false, yet the Section 5 flash point is
the literal "13°C" (the code's threshold is LogP > 1, not
`is_flammable`) and the flammable-limit text is the unconditional
literal "3.3% - 19% in air" (never "not applicable"). -/
theorem C8_counterexample :
    is_flammable (some aspirin_record) = false ∧
    getField (mk_sds (some aspirin_record) sampleProtx samplePhys "2025-01-01")
        "Section5" "Flash Point" = some (.s "13°C") ∧
    getField (mk_sds (some aspirin_record) sampleProtx samplePhys "2025-01-01")
        "Section5" "Flammable Limits" = some (.s "3.3% - 19% in air") := by
  refine ⟨by norm_num [is_flammable, pub_logp, aspirin_record], ?_, rfl⟩
  have e : getField (mk_sds (some aspirin_record) sampleProtx samplePhys
      "2025-01-01") "Section5" "Flash Point" =
      some (.s (if pub_logp (some aspirin_record) > 1
                then "13°C" else "Not flammable")) := rfl
  rw [e, if_pos (by norm_num [pub_logp, aspirin_record])]

/-- C8 amended: the Section 5 flash point is "13°C" when the record's
LogP exceeds 1 (a threshold independent of `is_flammable`) and
"Not flammable" otherwise, and the flammable-limit text is the fixed
literal "3.3% - 19% in air" regardless of any flag. -/
theorem C8_flash_point_rule (p : Option PubchemRecord) (t : ProtxResult)
    (pr : PhysProps) (d : String) :
    getField (mk_sds p t pr d) "Section5" "Flash Point" =
      some (.s (if pub_logp p > 1 then "13°C" else "Not flammable")) ∧
    getField (mk_sds p t pr d) "Section5" "Flammable Limits" =
      some (.s "3.3% - 19% in air") :=
  ⟨rfl, rfl⟩

/-- The class of attribute values whose extraction must fall back to
the default: absent (`None`), the sentinel `"--"`, or unparseable. -/
def PValue.unusable : PValue → Bool
  | .num _ => false
  | _ => true

/-- A response whose weight attribute is the sentinel `"--"` while its
LogP attribute is a parseable number. -/
def mw_only_bad : Compound :=
  { missing_compound with
      molecular_weight := PValue.dashes
      xlogp := PValue.num 1.2 }

/-- A response whose weight attribute is a parseable number while its
LogP attribute is an unparseable string. -/
def logp_only_bad : Compound :=
  { missing_compound with
      molecular_weight := PValue.num 180.16
      xlogp := PValue.badStr }

/-- C9: the extraction is total on every resolver response (it always
returns a record, raising nothing), and each attribute defaults
independently: whenever the molecular-weight attribute is absent,
`None`, `"--"`, or unparseable the extracted weight is 0.0, and
whenever the LogP attribute is, the extracted LogP is 2.0 — each
regardless of the other attribute. -/
theorem C9_extraction_defaults (c : Compound) :
    ∃ r : PubchemRecord,
      get_pubchem_data (Lookup.ok c) = .ok (some r) ∧
      (c.molecular_weight.unusable = true → r.mw = 0) ∧
      (c.xlogp.unusable = true → r.logp = 2) := by
  refine ⟨_, rfl, ?_, ?_⟩
  · intro hmw
    have h0 : safe_float c.molecular_weight 0 = 0 := by
      cases hv : c.molecular_weight <;>
        simp_all [safe_float, PValue.unusable]
    simp [h0, round2]
  · intro hlp
    have h2 : safe_float c.xlogp 2 = 2 := by
      cases hv : c.xlogp <;>
        simp_all [safe_float, PValue.unusable]
    simp [h2, round2]
    norm_num

/-- Witness for C9 at the two one-sided responses: a `"--"` weight
with a parseable LogP defaults the weight alone, and an unparseable
LogP with a parseable weight defaults the LogP alone. -/
theorem C9_extraction_defaults_witness :
    mw_only_bad.molecular_weight.unusable = true ∧
    logp_only_bad.xlogp.unusable = true ∧
    (∃ r : PubchemRecord,
      get_pubchem_data (Lookup.ok mw_only_bad) = .ok (some r) ∧ r.mw = 0) ∧
    (∃ r : PubchemRecord,
      get_pubchem_data (Lookup.ok logp_only_bad) = .ok (some r) ∧
        r.logp = 2) := by
  refine ⟨rfl, rfl, ?_, ?_⟩
  · obtain ⟨r, hr, hmw, -⟩ := C9_extraction_defaults mw_only_bad
    exact ⟨r, hr, hmw rfl⟩
  · obtain ⟨r, hr, -, hlp⟩ := C9_extraction_defaults logp_only_bad
    exact ⟨r, hr, hlp rfl⟩

/-- C1: every document produced by a successful `generate_sds` run has
exactly 16 sections keyed "Section1".."Section16" in order, each with
the fixed title of the static table. -/
theorem C1_sixteen_sections (env : Env) (doc : Sds)
    (h : generate_sds env = .ok (some doc)) :
    doc.map Prod.fst =
      (List.range 16).map (fun i => "Section" ++ toString (i + 1)) ∧
    doc.map (fun e => e.2.title) =
      (List.range 16).map (fun i => section_name (i + 1)) ∧
    doc.length = 16 := by
  obtain ⟨l1, l2, l3, l4, d⟩ := env
  cases l1 <;> cases l2 <;> cases l3 <;> cases l4 <;>
    simp [generate_sds, validate_smiles, get_pubchem_data,
      predict_toxicity_protx, get_physical_properties] at h
  all_goals subst h
  all_goals exact ⟨rfl, rfl, rfl⟩

/-- Witness for C1: the concrete environment `sampleEnv` produces
`sampleDoc`, whose key list is "Section1".."Section16". -/
theorem C1_sixteen_sections_witness :
    generate_sds sampleEnv = .ok (some sampleDoc) ∧
    sampleDoc.map Prod.fst =
      (List.range 16).map (fun i => "Section" ++ toString (i + 1)) :=
  ⟨rfl, (C1_sixteen_sections sampleEnv sampleDoc rfl).1⟩

/-- C5: `is_toxic` is false for every classifier output, so the
toxicity pictogram and the H301/H331 statements never appear in
Section 3, and the signal word is "Danger" exactly when the record's
LogP exceeds 1.5. -/
theorem C5_is_toxic_always_false (syns : List String)
    (p : Option PubchemRecord) (pr : PhysProps) (d : String) :
    is_toxic (classify_synonyms syns).toxicity_class = false ∧
    is_toxic "Unknown" = false ∧
    getField (mk_sds p (classify_synonyms syns) pr d)
        "Section3" "GHS Pictograms" =
      some (.s (if is_flammable p then "🔥 Flammable" else "Not classified")) ∧
    getField (mk_sds p (classify_synonyms syns) pr d)
        "Section3" "Hazard Statements" =
      some (.list (if is_flammable p
                   then ["H225: Highly flammable liquid and vapor"]
                   else ["No significant hazards identified"])) ∧
    getField (mk_sds p (classify_synonyms syns) pr d)
        "Section3" "Signal Word" =
      some (.s (if pub_logp p > 3 / 2 then "Danger" else "Warning")) := by
  have htx := is_toxic_classify_eq_false syns
  refine ⟨htx, rfl, ?_, ?_, ?_⟩
  · have e : getField (mk_sds p (classify_synonyms syns) pr d)
        "Section3" "GHS Pictograms" =
        some (.s (if (pictograms (is_flammable p)
            (is_toxic (classify_synonyms syns).toxicity_class)).isEmpty
          then "Not classified"
          else String.intercalate ", " (pictograms (is_flammable p)
            (is_toxic (classify_synonyms syns).toxicity_class)))) := rfl
    rw [e, htx]
    cases hfl : is_flammable p <;> rfl
  · have e : getField (mk_sds p (classify_synonyms syns) pr d)
        "Section3" "Hazard Statements" =
        some (.list (if (hazard_statements (is_flammable p)
            (is_toxic (classify_synonyms syns).toxicity_class)).isEmpty
          then ["No significant hazards identified"]
          else hazard_statements (is_flammable p)
            (is_toxic (classify_synonyms syns).toxicity_class))) := rfl
    rw [e, htx]
    cases hfl : is_flammable p <;> rfl
  · have e : getField (mk_sds p (classify_synonyms syns) pr d)
        "Section3" "Signal Word" =
        some (.s (if is_flammable p ||
            is_toxic (classify_synonyms syns).toxicity_class
          then "Danger" else "Warning")) := rfl
    rw [e, htx]
    by_cases hq : pub_logp p > 3 / 2 <;> simp [is_flammable, hq]

/-- C7: `validate_smiles` returns `None` (and `generate_sds` builds no
document) on an empty candidate list; but on a raised lookup fault the
`except` handler references the unimported name `st`, so a `NameError`
escapes `validate_smiles` and `generate_sds` instead of the documented
swallow-and-return-`NotFound` behaviour. -/
theorem C7_lookup_failure_behaviour (l2 l3 l4 : Lookup) (d : String) :
    validate_smiles Lookup.empty = .ok Option.none ∧
    generate_sds ⟨Lookup.empty, l2, l3, l4, d⟩ = .ok Option.none ∧
    validate_smiles Lookup.fault = .error (PyError.nameError "st") ∧
    generate_sds ⟨Lookup.fault, l2, l3, l4, d⟩ =
      .error (PyError.nameError "st") :=
  ⟨rfl, rfl, rfl, rfl⟩

/-- Counterexample to C10: two `generate_sds` calls with identical
record, assessment and property inputs but run on different days yield
different documents, because Section 16 copies `datetime.now()`. -/
theorem C10_counterexample :
    mk_sds (some aspirin_record) sampleProtx samplePhys "2025-01-01" ≠
    mk_sds (some aspirin_record) sampleProtx samplePhys "2025-01-02" := by
  intro h
  have h16 : getField (mk_sds (some aspirin_record) sampleProtx samplePhys
        "2025-01-01") "Section16" "Date Prepared" =
      getField (mk_sds (some aspirin_record) sampleProtx samplePhys
        "2025-01-02") "Section16" "Date Prepared" := by rw [h]
  have e1 : getField (mk_sds (some aspirin_record) sampleProtx samplePhys
        "2025-01-01") "Section16" "Date Prepared" =
      some (.s "2025-01-01") := rfl
  have e2 : getField (mk_sds (some aspirin_record) sampleProtx samplePhys
        "2025-01-02") "Section16" "Date Prepared" =
      some (.s "2025-01-02") := rfl
  rw [e1, e2] at h16
  exact absurd h16 (by decide)

/-- C10 amended: with identical record/assessment/property inputs the
assembler is deterministic up to the generation date: sections 1-15
coincide, every Section 16 field other than "Date Prepared" coincides,
and runs with the same date give byte-identical documents. -/
theorem C10_deterministic_up_to_date (p : Option PubchemRecord)
    (t : ProtxResult) (pr : PhysProps) (d1 d2 : String) :
    (mk_sds p t pr d1).take 15 = (mk_sds p t pr d2).take 15 ∧
    (∀ k : String, k ≠ "Date Prepared" →
      getField (mk_sds p t pr d1) "Section16" k =
      getField (mk_sds p t pr d2) "Section16" k) ∧
    (d1 = d2 → mk_sds p t pr d1 = mk_sds p t pr d2) := by
  refine ⟨rfl, ?_, fun h => by rw [h]⟩
  intro k hk
  have e : ∀ d : String, getField (mk_sds p t pr d) "Section16" k =
      List.lookup k (mk_section16 d) := fun d => rfl
  rw [e, e]
  unfold mk_section16
  cases hkb : (k == "Date Prepared") with
  | true => exact absurd (eq_of_beq hkb) hk
  | false => simp [List.lookup, hkb]

/-- Witness for C10 at a field other than "Date Prepared" and at a
pair of equal dates. -/
theorem C10_deterministic_up_to_date_witness :
    ("Disclaimer" : String) ≠ "Date Prepared" ∧
    getField (mk_sds (some aspirin_record) sampleProtx samplePhys
        "2025-01-01") "Section16" "Disclaimer" =
      getField (mk_sds (some aspirin_record) sampleProtx samplePhys
        "2025-01-03") "Section16" "Disclaimer" ∧
    mk_sds (some aspirin_record) sampleProtx samplePhys "2025-01-04" =
      mk_sds (some aspirin_record) sampleProtx samplePhys "2025-01-04" :=
  ⟨by decide,
   (C10_deterministic_up_to_date (some aspirin_record) sampleProtx samplePhys
       "2025-01-01" "2025-01-03").2.1 "Disclaimer" (by decide),
   (C10_deterministic_up_to_date (some aspirin_record) sampleProtx samplePhys
       "2025-01-04" "2025-01-04").2.2 rfl⟩

end SDS
